import Mathlib

/-!
Shallow embedding of `raqote-utils` (`src/src/lib.rs`): the SVG path-data
tokenizer/interpreter `create_path_from_string` (with its helper `split_path`)
and the circle approximation `build_circle`.

Modelling conventions:
* An input string is a `List Char`; a token is a `List Char`.
* `f32` values are modelled as exact rationals `ℚ`; every arithmetic step in
  the source is a single addition/subtraction/multiplication of values that
  the claims compare structurally, so the rational model is faithful for the
  stated properties.
* A Rust panic (`unwrap`, `expect`, out-of-bounds index) is modelled as
  `none`; the `raqote::Path` returned by `finish()` is modelled as the list
  of builder calls issued to the `PathBuilder`.
* `char::is_alphabetic` is modelled by ASCII `Char.isAlpha`; every input in
  the claims is ASCII.
-/

/-- A primitive drawing call issued to the `PathBuilder` collaborator
(`move_to`, `line_to`, `quad_to`, `cubic_to`, `close`). -/
inductive PathOp : Type
  | moveTo (x y : ℚ)
  | lineTo (x y : ℚ)
  | quadTo (x1 y1 x y : ℚ)
  | cubicTo (x1 y1 x2 y2 x y : ℚ)
  | close
deriving DecidableEq, Repr

/-- `true` exactly on a `cubicTo` builder call. -/
def PathOp.isCubic : PathOp → Bool
  | .cubicTo _ _ _ _ _ _ => true
  | _ => false

/-- `true` exactly on a `close` builder call. -/
def PathOp.isClose : PathOp → Bool
  | .close => true
  | _ => false

/-- The accumulator loop of `split_path` (lib.rs lines 15-27): a separator
(space or comma) flushes the buffer; an alphabetic character flushes the
buffer and starts a fresh buffer holding that character; any other character
is appended to the buffer.  At end of input a non-empty buffer is flushed
(lines 28-30). -/
def splitPathAux : List Char → List Char → List (List Char) → List (List Char)
  | [], buffer, output => if buffer.isEmpty then output else output ++ [buffer]
  | c :: rest, buffer, output =>
    if c = ' ' ∨ c = ',' then
      splitPathAux rest [] (output ++ [buffer])
    else if c.isAlpha then
      splitPathAux rest [c] (output ++ [buffer])
    else
      splitPathAux rest (buffer ++ [c]) output

/-- `split_path` (lib.rs lines 10-36): run the scanning loop, then
`output.retain(|x| !x.is_empty())`. -/
def split_path (target : List Char) : List (List Char) :=
  (splitPathAux target [] []).filter (fun t => !t.isEmpty)

/-- Digit string to natural number, most significant digit first. -/
def digitsToNat (ds : List Char) : Nat :=
  ds.foldl (fun n c => 10 * n + (c.toNat - '0'.toNat)) 0

/-- Model of `str::parse::<f32>` on the strings reachable from `split_path`
output (such strings never contain letters, so the exponent/`inf`/`NaN`
forms of the Rust float grammar are unreachable): an optional sign, then
digits with at most one decimal point and at least one digit; anything else
fails (`none` models the `expect("Failed to parse number")` panic). -/
def parseNum (t : List Char) : Option ℚ :=
  let sign : ℚ := if t.head? = some '-' then -1 else 1
  let body : List Char :=
    if t.head? = some '-' ∨ t.head? = some '+' then t.tail else t
  let ip : List Char := body.takeWhile (fun c => c ≠ '.')
  let rest : List Char := body.dropWhile (fun c => c ≠ '.')
  let fp : List Char := rest.tail
  if ip.all Char.isDigit ∧ fp.all Char.isDigit ∧ ¬(ip.isEmpty ∧ fp.isEmpty) then
    some (sign * ((digitsToNat ip : ℚ) + (digitsToNat fp : ℚ) / 10 ^ fp.length))
  else
    none

/-- `true` when a token's first character is an ASCII digit: the loop guard
`elements_values.peek().unwrap().chars().nth(0).unwrap().is_digit(10)`
(lib.rs line 81) applied to a present token.  Tokens produced by
`split_path` are never empty (empties are filtered out), so the inner
`nth(0).unwrap()` cannot panic on reachable inputs. -/
def digitStart (t : List Char) : Bool :=
  match t.head? with
  | some c => c.isDigit
  | none => false

/-- Parse every token of a list as a number; the first failure is the
`expect("Failed to parse number")` panic (lib.rs line 83). -/
def parseArgsList : List (List Char) → Option (List ℚ)
  | [] => some []
  | t :: rest =>
    match parseNum t with
    | none => none
    | some v => (parseArgsList rest).map (fun vs => v :: vs)

/-- The first-argument step (lib.rs lines 77-80): the characters of the
token after the command letter, parsed as one number when non-empty. -/
def firstArgs (t : List Char) : Option (List ℚ) :=
  if t.isEmpty then some [] else (parseNum t).map (fun v => [v])

/-- The grouping pass of `create_path_from_string` (lib.rs lines 69-88),
with a fuel argument for structural recursion (the caller supplies
`length + 1`, which the fuel-sufficiency argument in `groupElementsF` shows
is never exhausted: every recursive call consumes at least one token).

Per token: `element.chars().nth(0).unwrap()` is the command (a `none` head
models that unreachable panic); a token starting with `Z` pushes
`('Z', vec![])` and continues; otherwise the rest of the token is the first
argument, then the digit-continuation loop
`while elements_values.peek().unwrap()...is_digit(10)` consumes the maximal
run of digit-initial tokens as further arguments — when that run reaches
the end of the token list, `peek()` is `None` and the `unwrap` panics
(`none`). -/
def groupElementsF : Nat → List (List Char) → Option (List (Char × List ℚ))
  | 0, _ => none
  | _ + 1, [] => some []
  | fuel + 1, element :: rest =>
    match element.head? with
    | none => none
    | some command =>
      if command = 'Z' then
        (groupElementsF fuel rest).map (fun gs => ('Z', ([] : List ℚ)) :: gs)
      else
        let cont := rest.takeWhile digitStart
        let rest2 := rest.dropWhile digitStart
        if rest2.isEmpty then
          none
        else
          match firstArgs element.tail, parseArgsList cont with
          | some a0, some vs =>
            (groupElementsF fuel rest2).map (fun gs => (command, a0 ++ vs) :: gs)
          | _, _ => none

/-- The grouping pass at sufficient fuel. -/
def groupElements (toks : List (List Char)) : Option (List (Char × List ℚ)) :=
  groupElementsF (toks.length + 1) toks

/-- One iteration of the interpretation loop (lib.rs lines 97-168): the
`match command.to_string().as_str()` with arms for
`m,M,l,L,v,V,h,H,c,C,s,S` and the catch-all `_ => {}` (which also receives
`Z`, since the match has no `"Z"` arm).  `values[i]` out of bounds is a
panic, modelled by `values[i]?` being `none`.  Returns the new cursor and
the builder calls issued. -/
def interpOne (lx ly : ℚ) (command : Char) (values : List ℚ) :
    Option (ℚ × ℚ × List PathOp) :=
  match command with
  | 'm' =>
    match values[0]?, values[1]? with
    | some v0, some v1 => some (lx + v0, ly + v1, [.moveTo (lx + v0) (ly + v1)])
    | _, _ => none
  | 'M' =>
    match values[0]?, values[1]? with
    | some v0, some v1 => some (v0, v1, [.moveTo v0 v1])
    | _, _ => none
  | 'l' =>
    match values[0]?, values[1]? with
    | some v0, some v1 => some (lx + v0, ly + v1, [.lineTo (lx + v0) (ly + v1)])
    | _, _ => none
  | 'L' =>
    match values[0]?, values[1]? with
    | some v0, some v1 => some (v0, v1, [.lineTo v0 v1])
    | _, _ => none
  | 'v' =>
    match values[0]? with
    | some v0 => some (lx, ly + v0, [.lineTo lx (ly + v0)])
    | none => none
  | 'V' =>
    match values[0]? with
    | some v0 => some (lx, v0, [.lineTo lx v0])
    | none => none
  | 'h' =>
    match values[0]? with
    | some v0 => some (lx + v0, ly, [.lineTo (lx + v0) ly])
    | none => none
  | 'H' =>
    match values[0]? with
    | some v0 => some (v0, ly, [.lineTo v0 ly])
    | none => none
  | 'c' =>
    match values[0]?, values[1]?, values[2]?, values[3]?, values[4]?, values[5]? with
    | some v0, some v1, some v2, some v3, some v4, some v5 =>
      some (lx + v4, ly + v5,
        [.cubicTo (lx + v0) (ly + v1) (lx + v2) (ly + v3) (lx + v4) (ly + v5)])
    | _, _, _, _, _, _ => none
  | 'C' =>
    match values[0]?, values[1]?, values[2]?, values[3]?, values[4]?, values[5]? with
    | some v0, some v1, some v2, some v3, some v4, some v5 =>
      some (v4, v5, [.cubicTo v0 v1 v2 v3 v4 v5])
    | _, _, _, _, _, _ => none
  | 's' =>
    match values[0]?, values[1]?, values[2]?, values[3]? with
    | some v0, some v1, some v2, some v3 =>
      some (lx + v2, ly + v3, [.quadTo (lx + v0) (ly + v1) (lx + v2) (ly + v3)])
    | _, _, _, _ => none
  | 'S' =>
    match values[0]?, values[1]?, values[2]?, values[3]? with
    | some v0, some v1, some v2, some v3 =>
      some (v2, v3, [.quadTo v0 v1 v2 v3])
    | _, _, _, _ => none
  | _ => some (lx, ly, [])

/-- The interpretation loop over all grouped commands, threading the cursor
`(last_x, last_y)` from `(0, 0)` (lib.rs lines 94-169). -/
def runInterp : ℚ → ℚ → List (Char × List ℚ) → Option (List PathOp)
  | _, _, [] => some []
  | lx, ly, (c, vs) :: rest =>
    match interpOne lx ly c vs with
    | none => none
    | some (lx2, ly2, ops) => (runInterp lx2 ly2 rest).map (fun tl => ops ++ tl)

/-- `create_path_from_string` (lib.rs lines 57-172): tokenize, group,
interpret from cursor `(0, 0)`, and return the builder-call sequence that
`finish()` freezes into the path.  `none` models a panic. -/
def create_path_from_string (svg_raw_path : List Char) : Option (List PathOp) :=
  (groupElements (split_path svg_raw_path)).bind (fun gs => runInterp 0 0 gs)

/-- `build_circle` (lib.rs lines 189-229): shadows `x := x - radius`,
`y := y + radius`, sets `offset := 0.5522847498 * radius`, then issues one
`move_to` and four `cubic_to` calls.  The rational values name the exact
expressions the source computes; `f32` rounding is not modelled, so
theorems about this definition state only structural facts about those
expressions (which coordinate expressions are passed where), not
simplifications that `f32` rounding could break. -/
def build_circle (radius x0 y0 : ℚ) : List PathOp :=
  let x := x0 - radius
  let y := y0 + radius
  let offset := (5522847498 : ℚ) / 10000000000 * radius
  [ .moveTo (x + radius) y,
    .cubicTo (x + radius + offset) y (x + radius * 2) (y - radius + offset)
      (x + radius * 2) (y - radius),
    .cubicTo (x + radius * 2) (y - radius - offset) (x + radius + offset)
      (y - radius * 2) (x + radius) (y - radius * 2),
    .cubicTo (x + radius - offset) (y - radius * 2) x (y - radius - offset)
      x (y - radius),
    .cubicTo x (y - offset) (x + radius - offset) y (x + radius) y ]

/-! ## Helper lemmas -/

/-- If the token list ends in a token whose first character is not `Z`, the
grouping pass panics at any fuel: the digit-continuation loop of the final
command group runs off the end of the iterator and `peek().unwrap()` is a
panic (or an earlier parse failure panics first). -/
theorem groupElementsF_none_of_last_not_Z (fuel : Nat) :
    ∀ (toks : List (List Char)) (t : List Char),
      toks.getLast? = some t → t.head? ≠ some 'Z' →
      groupElementsF fuel toks = none := by
  induction fuel with
  | zero => intro toks t _ _; rfl
  | succ n ih =>
    intro toks t hlast hz
    match toks with
    | [] => simp at hlast
    | e :: rest =>
      simp only [groupElementsF]
      cases he : e.head? with
      | none => rfl
      | some command =>
        by_cases hcz : command = 'Z'
        · subst hcz
          match rest with
          | [] =>
            exfalso
            apply hz
            have ht : e = t := by simpa using hlast
            rw [← ht]
            exact he
          | r :: rs =>
            have hlast2 : (r :: rs).getLast? = some t := by
              rwa [List.getLast?_cons_cons] at hlast
            simp [if_pos rfl, ih (r :: rs) t hlast2 hz]
        · simp only [if_neg hcz]
          cases h2 : rest.dropWhile digitStart with
          | nil => simp [h2]
          | cons r2 rs2 =>
            have hne : rest.dropWhile digitStart ≠ [] := by simp [h2]
            obtain ⟨pre, hpre⟩ := List.dropWhile_suffix (l := rest) digitStart
            have hrestne : rest ≠ [] := by
              intro hr
              rw [hr, List.dropWhile_nil] at h2
              exact List.noConfusion h2
            have hlastrest : rest.getLast? = some t := by
              match rest, hrestne with
              | r :: rs, _ => rwa [List.getLast?_cons_cons] at hlast
            have hlast2 : (rest.dropWhile digitStart).getLast? = some t := by
              rw [← hpre] at hlastrest
              rwa [List.getLast?_append_of_ne_nil pre hne] at hlastrest
            have hnone : groupElementsF n (rest.dropWhile digitStart) = none :=
              ih _ t hlast2 hz
            rw [h2] at hnone
            cases hfa : firstArgs e.tail with
            | none => simp [h2, hfa]
            | some a0 =>
              cases hpl : parseArgsList (rest.takeWhile digitStart) with
              | none => simp [h2, hfa, hpl]
              | some vs => simp [h2, hfa, hpl, hnone]

/-- On an input made only of separators the scanning loop keeps the buffer
empty and pushes only empty strings, all of which `retain` removes. -/
theorem splitPathAux_sep :
    ∀ (s : List Char) (out : List (List Char)),
      (∀ c ∈ s, c = ' ' ∨ c = ',') → (∀ u ∈ out, u = ([] : List Char)) →
      (splitPathAux s [] out).filter (fun u => !u.isEmpty) = [] := by
  intro s
  induction s with
  | nil =>
    intro out _ hout
    simp only [splitPathAux, List.isEmpty_nil, if_pos rfl]
    rw [List.filter_eq_nil_iff]
    intro u hu
    simp [hout u hu]
  | cons c rest ih =>
    intro out hs hout
    have hc : c = ' ' ∨ c = ',' := hs c (List.mem_cons_self c rest)
    simp only [splitPathAux, if_pos hc]
    refine ih (out ++ [[]]) (fun d hd => hs d (List.mem_cons_of_mem c hd)) ?_
    intro u hu
    rcases List.mem_append.mp hu with h | h
    · exact hout u h
    · simpa using h

/-- Digit value of the character `0`. -/
theorem csub0 : '0'.toNat - '0'.toNat = 0 := by decide

/-- Digit value of the character `1`. -/
theorem csub1 : '1'.toNat - '0'.toNat = 1 := by decide

/-- Digit value of the character `2`. -/
theorem csub2 : '2'.toNat - '0'.toNat = 2 := by decide

/-- Digit value of the character `3`. -/
theorem csub3 : '3'.toNat - '0'.toNat = 3 := by decide

/-- Digit value of the character `4`. -/
theorem csub4 : '4'.toNat - '0'.toNat = 4 := by decide

/-- Digit value of the character `5`. -/
theorem csub5 : '5'.toNat - '0'.toNat = 5 := by decide

/-! ## Claim theorems -/

/-- Claim C1: for every input whose token list is non-empty and whose final
token does not begin with `Z`, `create_path_from_string` panics (returns no
path): the digit-continuation check `peek().unwrap()` hits `None` after the
last argument is consumed (or an earlier number-parse panic fires); only
inputs with no tokens or with a final token beginning with `Z` can complete
normally. -/
theorem create_path_panics_without_trailing_Z (s t : List Char)
    (h : (split_path s).getLast? = some t) (hz : t.head? ≠ some 'Z') :
    create_path_from_string s = none := by
  unfold create_path_from_string
  rw [show groupElements (split_path s) = none from
    groupElementsF_none_of_last_not_Z _ _ t h hz]
  rfl

/-- Witness for C1 at the concrete input `"M10 10"`. -/
theorem create_path_panics_without_trailing_Z_witness :
    (split_path "M10 10".toList).getLast? = some ['1', '0'] ∧
      (['1', '0'] : List Char).head? ≠ some 'Z' ∧
      create_path_from_string "M10 10".toList = none :=
  ⟨by decide, by decide,
    create_path_panics_without_trailing_Z "M10 10".toList ['1', '0']
      (by decide) (by decide)⟩

/-- Claim C2 (code bug): on `"M0 0L10 0L10 10L0 10Z"` the builder-call
sequence is `[moveTo(0,0), lineTo(10,0), lineTo(10,10), lineTo(0,10)]` with
no `close()`: the interpretation `match` has no `"Z"` arm, so the `Z` group
falls into the catch-all `_ => {}` and is silently dropped. -/
theorem z_group_emits_no_close :
    create_path_from_string "M0 0L10 0L10 10L0 10Z".toList =
      some [PathOp.moveTo 0 0, PathOp.lineTo 10 0,
        PathOp.lineTo 10 10, PathOp.lineTo 0 10] ∧
    PathOp.close ∉ [PathOp.moveTo 0 0, PathOp.lineTo 10 0,
        PathOp.lineTo 10 10, PathOp.lineTo 0 10] := by
  constructor
  · have h1 : split_path "M0 0L10 0L10 10L0 10Z".toList =
        [['M', '0'], ['0'], ['L', '1', '0'], ['0'], ['L', '1', '0'],
         ['1', '0'], ['L', '0'], ['1', '0'], ['Z']] := by decide
    unfold create_path_from_string
    rw [h1]
    norm_num +decide [groupElements, groupElementsF, digitStart, firstArgs,
      parseArgsList, parseNum, digitsToNat, runInterp, interpOne,
      csub0, csub1, csub2, csub3, csub4, csub5]
  · simp

/-- Claim C3 (counterexample): the input `"A 5 5 Z"` contains the
unsupported command letter `A`, yet `create_path_from_string` returns a
path (with zero drawing calls) instead of failing with a `ParseError`: the
interpretation's catch-all arm silently skips the command. -/
theorem unsupported_command_returns_path :
    create_path_from_string "A 5 5 Z".toList = some [] := by decide

/-- Claim C3 (amended): no `ParseError` type exists; an unsupported command
letter reaches the catch-all `_ => {}` arm of the interpretation match and
produces no builder call.  When the unsupported group is followed by a
`Z`-initial token the parse completes and the command is silently skipped
(`"A 5 5 Z"` yields an empty path); when the unsupported group ends the
input, the grouping loop panics instead (`"A 5 5 0 0 1 10 10"`). -/
theorem unsupported_command_catchall_behavior :
    (∀ (lx ly : ℚ) (vs : List ℚ), interpOne lx ly 'A' vs = some (lx, ly, [])) ∧
    create_path_from_string "A 5 5 Z".toList = some [] ∧
    create_path_from_string "A 5 5 0 0 1 10 10".toList = none := by
  refine ⟨fun lx ly vs => rfl, by decide, by decide⟩

/-- Claim C4 (counterexample): `build_circle 100 256 256` does not start at
the rightmost point `(356, 256)`. -/
theorem build_circle_start_not_rightmost :
    (build_circle 100 256 256).head? ≠ some (PathOp.moveTo 356 256) := by
  norm_num [build_circle]

/-- Claim C4 (amended): `build_circle radius centerX centerY` starts the
path at the bottom point of the circle: the source shadows
`x := x - radius`, `y := y + radius` and its first builder call is
`move_to(x + radius, y)`, i.e. `moveTo((centerX - radius) + radius,
centerY + radius)`.  The statement keeps the computed expression for the
x coordinate: it equals `centerX` in exact arithmetic, but the source
evaluates it in `f32`, where the rounding of `centerX - radius` can make
it differ from `centerX`, so only the structural fact is claimed
universally.  In particular `build_circle 100 256 256`, whose `f32`
arithmetic is exact, starts with `moveTo(256, 356)`. -/
theorem build_circle_starts_at_bottom :
    (∀ r cx cy : ℚ,
      (build_circle r cx cy).head? = some (PathOp.moveTo (cx - r + r) (cy + r))) ∧
    (build_circle 100 256 256).head? = some (PathOp.moveTo 256 356) := by
  constructor
  · intro r cx cy
    rfl
  · norm_num [build_circle]

/-- Claim C5 (counterexample): `"M 1 2 3 Z"` carries three arguments for
the arity-2 command `M`, yet `create_path_from_string` accepts it silently
(emitting `moveTo(1,2)` and discarding the `3`) instead of failing with a
typed `ArityMismatch` error. -/
theorem arity_overflow_silently_accepted :
    create_path_from_string "M 1 2 3 Z".toList = some [PathOp.moveTo 1 2] := by
  have h1 : split_path "M 1 2 3 Z".toList =
      [['M'], ['1'], ['2'], ['3'], ['Z']] := by decide
  unfold create_path_from_string
  rw [h1]
  norm_num +decide [groupElements, groupElementsF, digitStart, firstArgs,
    parseArgsList, parseNum, digitsToNat, runInterp, interpOne,
    csub0, csub1, csub2, csub3, csub4, csub5]

/-- Claim C5 (amended): no typed `ArityMismatch` error exists.  A group
with more arguments than the command's arity is silently accepted and the
extra values are ignored (`"M 1 2 3 Z"`); a group with fewer arguments
panics — either in the grouping loop's `peek().unwrap()` (`"M10"`) or at
the out-of-bounds `values[1]` index during interpretation (`"M10 Z"`). -/
theorem arity_mismatch_behavior :
    create_path_from_string "M 1 2 3 Z".toList = some [PathOp.moveTo 1 2] ∧
    create_path_from_string "M10".toList = none ∧
    create_path_from_string "M10 Z".toList = none := by
  refine ⟨?_, by decide, by decide⟩
  have h1 : split_path "M 1 2 3 Z".toList =
      [['M'], ['1'], ['2'], ['3'], ['Z']] := by decide
  unfold create_path_from_string
  rw [h1]
  norm_num +decide [groupElements, groupElementsF, digitStart, firstArgs,
    parseArgsList, parseNum, digitsToNat, runInterp, interpOne,
    csub0, csub1, csub2, csub3, csub4, csub5]

/-- Claim C6 (counterexample): `"M0 0L10 10 20 20Z"` (one `L` with two
coordinate groups) and `"M0 0L10 10L20 20Z"` (the letter written before
every group) do not produce the same output: the extra group `20 20` is
silently discarded rather than repeated as a second `lineTo`. -/
theorem implicit_repetition_not_equivalent :
    create_path_from_string "M0 0L10 10 20 20Z".toList ≠
      create_path_from_string "M0 0L10 10L20 20Z".toList := by
  have h1 : create_path_from_string "M0 0L10 10 20 20Z".toList =
      some [PathOp.moveTo 0 0, PathOp.lineTo 10 10] := by
    have hs : split_path "M0 0L10 10 20 20Z".toList =
        [['M', '0'], ['0'], ['L', '1', '0'], ['1', '0'], ['2', '0'],
         ['2', '0'], ['Z']] := by decide
    unfold create_path_from_string
    rw [hs]
    norm_num +decide [groupElements, groupElementsF, digitStart, firstArgs,
      parseArgsList, parseNum, digitsToNat, runInterp, interpOne,
      csub0, csub1, csub2, csub3, csub4, csub5]
  have h2 : create_path_from_string "M0 0L10 10L20 20Z".toList =
      some [PathOp.moveTo 0 0, PathOp.lineTo 10 10, PathOp.lineTo 20 20] := by
    have hs : split_path "M0 0L10 10L20 20Z".toList =
        [['M', '0'], ['0'], ['L', '1', '0'], ['1', '0'], ['L', '2', '0'],
         ['2', '0'], ['Z']] := by decide
    unfold create_path_from_string
    rw [hs]
    norm_num +decide [groupElements, groupElementsF, digitStart, firstArgs,
      parseArgsList, parseNum, digitsToNat, runInterp, interpOne,
      csub0, csub1, csub2, csub3, csub4, csub5]
  rw [h1, h2]
  simp

/-- Claim C6 (amended): additional coordinate groups after one command
letter are collected as extra arguments of that single command, but the
interpretation reads only the first arity-many values, so the extra groups
are silently discarded and produce no drawing operations of their own:
`'L'` with any extra arguments behaves exactly like `'L'` with two, and
`"M0 0L10 10 20 20Z"` yields only `[moveTo(0,0), lineTo(10,10)]`. -/
theorem implicit_repetition_extra_args_discarded :
    (∀ (lx ly v0 v1 : ℚ) (extra : List ℚ),
      interpOne lx ly 'L' (v0 :: v1 :: extra) =
        some (v0, v1, [PathOp.lineTo v0 v1])) ∧
    create_path_from_string "M0 0L10 10 20 20Z".toList =
      some [PathOp.moveTo 0 0, PathOp.lineTo 10 10] := by
  refine ⟨fun lx ly v0 v1 extra => by simp [interpOne], ?_⟩
  have hs : split_path "M0 0L10 10 20 20Z".toList =
      [['M', '0'], ['0'], ['L', '1', '0'], ['1', '0'], ['2', '0'],
       ['2', '0'], ['Z']] := by decide
  unfold create_path_from_string
  rw [hs]
  norm_num +decide [groupElements, groupElementsF, digitStart, firstArgs,
    parseArgsList, parseNum, digitsToNat, runInterp, interpOne,
    csub0, csub1, csub2, csub3, csub4, csub5]

/-- Claim C7 (code bug): the spec's equivalence inputs `"M10 10l5 5"` and
`"M10 10L15 15"` both panic (no path is produced), because their final
tokens do not begin with `Z`; appending a terminating `Z` makes the
relative and absolute forms produce the identical builder-call sequence
`[moveTo(10,10), lineTo(15,15)]`. -/
theorem rel_abs_equivalence_panics_without_Z :
    create_path_from_string "M10 10l5 5".toList = none ∧
    create_path_from_string "M10 10L15 15".toList = none ∧
    create_path_from_string "M10 10l5 5Z".toList =
      some [PathOp.moveTo 10 10, PathOp.lineTo 15 15] ∧
    create_path_from_string "M10 10L15 15Z".toList =
      some [PathOp.moveTo 10 10, PathOp.lineTo 15 15] := by
  refine ⟨by decide, by decide, ?_, ?_⟩
  · have hs : split_path "M10 10l5 5Z".toList =
        [['M', '1', '0'], ['1', '0'], ['l', '5'], ['5'], ['Z']] := by decide
    unfold create_path_from_string
    rw [hs]
    norm_num +decide [groupElements, groupElementsF, digitStart, firstArgs,
      parseArgsList, parseNum, digitsToNat, runInterp, interpOne,
      csub0, csub1, csub2, csub3, csub4, csub5]
  · have hs : split_path "M10 10L15 15Z".toList =
        [['M', '1', '0'], ['1', '0'], ['L', '1', '5'], ['1', '5'], ['Z']] := by
      decide
    unfold create_path_from_string
    rw [hs]
    norm_num +decide [groupElements, groupElementsF, digitStart, firstArgs,
      parseArgsList, parseNum, digitsToNat, runInterp, interpOne,
      csub0, csub1, csub2, csub3, csub4, csub5]

/-- Claim C8: the `s` command with arguments `dx1,dy1,dx,dy` emits a single
`quadTo` with control point `(x+dx1, y+dy1)` and endpoint `(x+dx, y+dy)`
and moves the cursor to that endpoint; `S` is the absolute counterpart
emitting `quadTo(x1, y1, x, y)` — a quadratic curve call, not an SVG
smooth cubic.  End to end, `"M10 10s1 2 3 4Z"` yields
`[moveTo(10,10), quadTo(11,12,13,14)]`. -/
theorem s_command_emits_quadratic :
    (∀ x y dx1 dy1 dx dy : ℚ,
      interpOne x y 's' [dx1, dy1, dx, dy] =
        some (x + dx, y + dy,
          [PathOp.quadTo (x + dx1) (y + dy1) (x + dx) (y + dy)])) ∧
    (∀ x y x1 y1 xe ye : ℚ,
      interpOne x y 'S' [x1, y1, xe, ye] =
        some (xe, ye, [PathOp.quadTo x1 y1 xe ye])) ∧
    create_path_from_string "M10 10s1 2 3 4Z".toList =
      some [PathOp.moveTo 10 10, PathOp.quadTo 11 12 13 14] := by
  refine ⟨fun x y dx1 dy1 dx dy => by simp [interpOne],
    fun x y x1 y1 xe ye => by simp [interpOne], ?_⟩
  have hs : split_path "M10 10s1 2 3 4Z".toList =
      [['M', '1', '0'], ['1', '0'], ['s', '1'], ['2'], ['3'], ['4'], ['Z']] := by
    decide
  unfold create_path_from_string
  rw [hs]
  norm_num +decide [groupElements, groupElementsF, digitStart, firstArgs,
    parseArgsList, parseNum, digitsToNat, runInterp, interpOne,
    csub0, csub1, csub2, csub3, csub4, csub5]

/-- Claim C9: for every radius and center, `build_circle` emits exactly one
`moveTo` followed by exactly four `cubicTo` calls and no `close()`, and the
endpoint of the fourth cubic segment is exactly the `moveTo` start point:
the path is closed by construction without an explicit `close`. -/
theorem build_circle_shape (r cx cy : ℚ) :
    ∃ sx sy q a b c d,
      build_circle r cx cy = PathOp.moveTo sx sy :: q ∧
      q.length = 4 ∧
      (∀ op ∈ q, op.isCubic = true) ∧
      (∀ op ∈ PathOp.moveTo sx sy :: q, op.isClose = false) ∧
      q.getLast? = some (PathOp.cubicTo a b c d sx sy) := by
  refine ⟨_, _, _, _, _, _, _, rfl, rfl, ?_, ?_, rfl⟩
  · intro op hop
    simp only [List.mem_cons, List.not_mem_nil, or_false] at hop
    rcases hop with rfl | rfl | rfl | rfl <;> rfl
  · intro op hop
    simp only [List.mem_cons, List.not_mem_nil, or_false] at hop
    rcases hop with rfl | rfl | rfl | rfl | rfl <;> rfl

/-- Claim C10: an input consisting only of whitespace and comma separators
(including the empty input) does not fail: the tokenizer produces no
tokens, the builder receives zero drawing calls, and the empty path from
`finish()` is returned. -/
theorem separator_only_input_empty_path (s : List Char)
    (h : ∀ c ∈ s, c = ' ' ∨ c = ',') :
    create_path_from_string s = some [] := by
  have hsplit : split_path s = [] := by
    unfold split_path
    exact splitPathAux_sep s [] h (by intro u hu; simp at hu)
  unfold create_path_from_string
  rw [hsplit]
  rfl

/-- Witness for C10 at the concrete input `" ,"`. -/
theorem separator_only_input_empty_path_witness :
    (∀ c ∈ " ,".toList, c = ' ' ∨ c = ',') ∧
      create_path_from_string " ,".toList = some [] :=
  ⟨by decide, separator_only_input_empty_path " ,".toList (by decide)⟩
